import Mathlib

/-!
Verification development for the PartSelect scraping/caching subsystem
(`scraping/database_utils.py`, `scraping/database.py`, `scraping/itemclasses.py`,
`scraping/AbstractScraper.py`, `scraping/PartScraper.py`,
`scraping/scrape_all/scrape_cats.py`).

The Python source is shallowly embedded: dataclasses become structures with
`Option` fields (`None` ↦ `none`), SQL rows become finite maps from column
names to nullable SQL values, and the stateful browser session becomes explicit
state passing.  Python `float` literals that are only stored and compared (never
computed with) are embedded as `Rat`.
-/

namespace Scraper

/-- A non-null SQL cell value (TEXT / INTEGER / REAL / BOOLEAN), as stored by
the sqlite tables the repository creates. -/
inductive SqlVal where
  | text (s : String)
  | intv (n : Int)
  | real (q : Rat)
  | boolv (b : Bool)
deriving DecidableEq, Repr

/-- A table row: a map from column name to a nullable cell value (`none` = SQL
NULL).  Columns outside the table's column list are `none`. -/
def Row : Type := String → Option SqlVal

/-- An SQL expression of the shape occurring in the generated
`ON CONFLICT ... DO UPDATE SET` clauses: a reference to the incoming
(`excluded`) row, a reference to the stored row, or a two-argument COALESCE. -/
inductive SqlExpr where
  | excludedCol (c : String)
  | storedCol (c : String)
  | coalesce2 (a b : SqlExpr)
deriving DecidableEq, Repr

/-- Evaluate an `SqlExpr` against the stored row and the incoming (`excluded`)
row.  `COALESCE` returns its first non-NULL argument. -/
def evalExpr (stored excluded : Row) : SqlExpr → Option SqlVal
  | .excludedCol c => excluded c
  | .storedCol c => stored c
  | .coalesce2 a b =>
    match evalExpr stored excluded a with
    | some v => some v
    | none => evalExpr stored excluded b

/-- Embedding of `database_utils.generate_upsert_sql`: the exact SQL text the
Python function returns, given the dataclass's field names. -/
def generate_upsert_sql (all_fields : List String) (table_name primary_key : String) : String :=
  let col_list := String.intercalate ", " all_fields
  let placeholders := String.intercalate ", " (all_fields.map (fun _ => "?"))
  let coalesce_str := String.intercalate ",\n  "
    (all_fields.map (fun c => c ++ " = COALESCE(excluded." ++ c ++ ", " ++ table_name ++ "." ++ c ++ ")"))
  ("\nINSERT INTO " ++ table_name ++ " (" ++ col_list ++ ")\nVALUES (" ++ placeholders
    ++ ")\nON CONFLICT(" ++ primary_key ++ ") DO UPDATE SET\n  " ++ coalesce_str ++ "\n;\n").trim

/-- The structured content of the generated upsert's `DO UPDATE SET` clause:
for every dataclass field `c`, the assignment
`c = COALESCE(excluded.c, table.c)` (one clause per field, in field order),
exactly as `generate_upsert_sql` renders it. -/
def upsertUpdates (all_fields : List String) : List (String × SqlExpr) :=
  all_fields.map (fun c => (c, .coalesce2 (.excludedCol c) (.storedCol c)))

/-- Modelled from the spec: sqlite's execution of the `DO UPDATE SET` clause of
the generated statement (sqlite itself is outside the repository).  The spec
describes it as updating "every column to `coalesce(incoming, existing)`":
each assigned column is set to its clause's value, all other columns keep the
stored value. -/
def applyUpdates (upds : List (String × SqlExpr)) (stored excluded : Row) : Row :=
  fun c =>
    match upds.lookup c with
    | some e => evalExpr stored excluded e
    | none => stored c

/-- Modelled from the spec: sqlite's execution of the whole generated
`INSERT ... ON CONFLICT(pk) DO UPDATE SET ...` statement against a table
(a list of rows).  If the incoming row's primary-key value is non-NULL and some
stored row has the same primary-key value, every such row is updated through
the generated COALESCE clauses; otherwise the incoming row is inserted
(NULL primary keys never conflict in sqlite). -/
def execUpsert (all_fields : List String) (pk : String) (t : List Row) (r : Row) : List Row :=
  if (r pk).isSome ∧ t.any (fun s => s pk = r pk) then
    t.map (fun s => if s pk = r pk then applyUpdates (upsertUpdates all_fields) s r else s)
  else
    t ++ [r]

/-- A table is well formed when no two distinct rows carry the same non-NULL
primary-key value (the PRIMARY KEY constraint). -/
def WfTable (pk : String) (t : List Row) : Prop :=
  t.Pairwise (fun a b => ∀ v : SqlVal, a pk = some v → b pk ≠ some v)

/-- Embedding of the dataclass `itemclasses.PartItem` (all fields nullable;
`availability` defaults to `True`). -/
structure PartItem where
  manufacturer_id : Option String := none
  part_select_id : Option String := none
  name : Option String := none
  url : Option String := none
  availability : Option Bool := some true
  price : Option Rat := none
  difficulty : Option String := none
  time : Option String := none
  rating : Option Rat := none
  description : Option String := none
  fixes : Option String := none
  part_replacements : Option String := none
  products : Option String := none
  related_parts : Option String := none
deriving DecidableEq, Repr

/-- Field names of `PartItem` in dataclass declaration order (the column order
used by `generate_create_table_sql`, `generate_upsert_sql` and
`DatabaseHandler.save_part`). -/
def partCols : List String :=
  ["manufacturer_id", "part_select_id", "name", "url", "availability", "price",
   "difficulty", "time", "rating", "description", "fixes", "part_replacements",
   "products", "related_parts"]

/-- The row of parameter values `DatabaseHandler.save_part` binds into the
generated upsert: each `PartItem` field under its column name. -/
def partItemToRow (p : PartItem) : Row := fun c =>
  if c = "manufacturer_id" then p.manufacturer_id.map .text
  else if c = "part_select_id" then p.part_select_id.map .text
  else if c = "name" then p.name.map .text
  else if c = "url" then p.url.map .text
  else if c = "availability" then p.availability.map .boolv
  else if c = "price" then p.price.map .real
  else if c = "difficulty" then p.difficulty.map .text
  else if c = "time" then p.time.map .text
  else if c = "rating" then p.rating.map .real
  else if c = "description" then p.description.map .text
  else if c = "fixes" then p.fixes.map .text
  else if c = "part_replacements" then p.part_replacements.map .text
  else if c = "products" then p.products.map .text
  else if c = "related_parts" then p.related_parts.map .text
  else none

/-- Embedding of `DatabaseHandler.save_part`: bind the record's field values
and execute the generated parts upsert (conflict key `manufacturer_id`). -/
def save_part (t : List Row) (p : PartItem) : List Row :=
  execUpsert partCols "manufacturer_id" t (partItemToRow p)

/-! ### Helper lemmas about the generated upsert -/

theorem lookup_upsertUpdates (cols : List String) (c : String) :
    (upsertUpdates cols).lookup c =
      if c ∈ cols then some (.coalesce2 (.excludedCol c) (.storedCol c)) else none := by
  induction cols with
  | nil => simp [upsertUpdates]
  | cons d rest ih =>
    simp only [upsertUpdates, List.map_cons, List.lookup_cons]
    by_cases h : c = d
    · subst h; simp
    · have hbeq : (c == d) = false := by simp [h]
      simp only [hbeq]
      rw [show (upsertUpdates rest).lookup c =
            (rest.map (fun c => (c, SqlExpr.coalesce2 (.excludedCol c) (.storedCol c)))).lookup c
          from rfl] at ih
      rw [ih]
      simp [List.mem_cons, h]

theorem applyUpdates_eq (cols : List String) (stored excluded : Row) (c : String) :
    applyUpdates (upsertUpdates cols) stored excluded c =
      if c ∈ cols then (excluded c).orElse (fun _ => stored c) else stored c := by
  unfold applyUpdates
  rw [lookup_upsertUpdates]
  by_cases h : c ∈ cols
  · simp only [h, if_true, evalExpr]
    cases hx : excluded c <;> simp [hx, Option.orElse]
  · simp [h]

/-- Merging the same incoming row a second time changes nothing:
`COALESCE(r, COALESCE(r, s)) = COALESCE(r, s)` columnwise. -/
theorem applyUpdates_idem (cols : List String) (s r : Row) :
    applyUpdates (upsertUpdates cols) (applyUpdates (upsertUpdates cols) s r) r =
      applyUpdates (upsertUpdates cols) s r := by
  funext c
  rw [applyUpdates_eq, applyUpdates_eq]
  by_cases h : c ∈ cols
  · simp only [h, if_true]
    cases hx : r c <;> simp [hx, Option.orElse]
  · simp [h]

/-- Merging a row into itself gives back the same row. -/
theorem applyUpdates_self (cols : List String) (r : Row) :
    applyUpdates (upsertUpdates cols) r r = r := by
  funext c
  rw [applyUpdates_eq]
  by_cases h : c ∈ cols
  · simp only [h, if_true]
    cases hx : r c <;> simp [hx, Option.orElse]
  · simp [h]

/-- The merged row keeps the conflict key: the incoming key is non-NULL, so
`COALESCE(excluded.pk, stored.pk)` is the incoming key. -/
theorem applyUpdates_pk (cols : List String) (pk : String) (hpk : pk ∈ cols)
    (s r : Row) (hr : (r pk).isSome) :
    applyUpdates (upsertUpdates cols) s r pk = r pk := by
  rw [applyUpdates_eq, if_pos hpk]
  obtain ⟨v, hv⟩ := Option.isSome_iff_exists.mp hr
  simp [hv, Option.orElse]

/-- A well-formed table holds at most one row with a given non-NULL
primary-key value. -/
theorem wfTable_countP_le_one (pk : String) (t : List Row) (v : SqlVal)
    (hwf : WfTable pk t) :
    t.countP (fun s => s pk = some v) ≤ 1 := by
  induction t with
  | nil => simp
  | cons a rest ih =>
    rcases List.pairwise_cons.mp hwf with ⟨ha, hrest⟩
    by_cases h : a pk = some v
    · have hz : rest.countP (fun s => decide (s pk = some v)) = 0 := by
        rw [List.countP_eq_zero]
        intro b hb
        have := ha b hb v h
        simp [this]
      simp [List.countP_cons, h, hz]
    · simp only [List.countP_cons, h]
      simpa using ih hrest

/-- Executing the generated upsert twice with the same bound record is the
same as executing it once, and afterwards the table holds exactly one row
whose conflict-key column equals the record's (non-NULL) key. -/
theorem execUpsert_twice (cols : List String) (pk : String) (hpk : pk ∈ cols)
    (t : List Row) (r : Row) (v : SqlVal) (hv : r pk = some v)
    (hwf : WfTable pk t) :
    execUpsert cols pk (execUpsert cols pk t r) r = execUpsert cols pk t r ∧
      ((execUpsert cols pk t r).countP (fun s => s pk = some v)) = 1 := by
  have hr : (r pk).isSome := by simp [hv]
  set f : Row → Row :=
    fun s => if s pk = r pk then applyUpdates (upsertUpdates cols) s r else s with hf
  by_cases hc : t.any (fun s => s pk = r pk)
  · -- an existing row conflicts: both saves run the DO UPDATE branch
    have ht1 : execUpsert cols pk t r = t.map f := by
      rw [execUpsert, if_pos ⟨hr, hc⟩]
    have hff : ∀ s : Row, f (f s) = f s := by
      intro s
      by_cases hs : s pk = r pk
      · have h1 : f s = applyUpdates (upsertUpdates cols) s r := by simp [hf, hs]
        have h2 : f s pk = r pk := by rw [h1, applyUpdates_pk cols pk hpk s r hr]
        simp only [hf]
        rw [if_pos hs, if_pos (by rw [applyUpdates_pk cols pk hpk s r hr])]
        exact applyUpdates_idem cols s r
      · simp [hf, hs]
    have hfpk : ∀ s : Row, (f s pk = some v) = (s pk = some v) := by
      intro s
      by_cases hs : s pk = r pk
      · simp only [hf]
        rw [if_pos hs, applyUpdates_pk cols pk hpk s r hr, hv]
        rw [hv] at hs
        simp [hs]
      · simp [hf, hs]
    have hany1 : (t.map f).any (fun s => s pk = r pk) := by
      rw [List.any_eq_true] at hc ⊢
      obtain ⟨s, hs, hspk⟩ := hc
      refine ⟨f s, List.mem_map_of_mem f hs, ?_⟩
      simp only [decide_eq_true_eq] at hspk ⊢
      simp only [hf]
      rw [if_pos hspk]
      exact applyUpdates_pk cols pk hpk s r hr
    constructor
    · rw [ht1, execUpsert, if_pos ⟨hr, hany1⟩, List.map_map]
      exact List.map_congr_left (fun s _ => hff s)
    · rw [ht1, List.countP_map]
      have he : t.countP ((fun s => decide (s pk = some v)) ∘ f) =
          t.countP (fun s => decide (s pk = some v)) := by
        apply List.countP_congr
        intro s _
        simp [Function.comp, hfpk s]
      rw [he]
      have hle := wfTable_countP_le_one pk t v hwf
      have hge : 0 < t.countP (fun s => s pk = some v) := by
        rw [List.countP_pos_iff]
        rw [List.any_eq_true] at hc
        obtain ⟨s, hs, hspk⟩ := hc
        simp only [decide_eq_true_eq] at hspk
        exact ⟨s, hs, by simp [hspk, ← hv]⟩
      exact le_antisymm hle hge
  · -- no conflicting row: first save inserts, second save merges r with itself
    have ht1 : execUpsert cols pk t r = t ++ [r] := by
      rw [execUpsert, if_neg]
      intro hand
      exact hc hand.2
    have hnot : ∀ s ∈ t, ¬(s pk = r pk) := by
      intro s hs hspk
      apply hc
      rw [List.any_eq_true]
      exact ⟨s, hs, by simp [hspk]⟩
    have hany1 : (t ++ [r]).any (fun s => s pk = r pk) := by
      rw [List.any_eq_true]
      exact ⟨r, by simp, by simp⟩
    constructor
    · rw [ht1, execUpsert, if_pos ⟨hr, hany1⟩, List.map_append]
      have h1 : t.map f = t := by
        conv_rhs => rw [← List.map_id t]
        apply List.map_congr_left
        intro s hs
        simp [hf, hnot s hs]
      have h2 : [r].map f = [r] := by
        simp [hf, applyUpdates_self]
      rw [h1, h2]
    · rw [ht1, List.countP_append]
      have h1 : t.countP (fun s => s pk = some v) = 0 := by
        rw [List.countP_eq_zero]
        intro s hs
        have := hnot s hs
        rw [hv] at this
        simp [this]
      have h2 : List.countP (fun s => decide (s pk = some v)) [r] = 1 := by
        simp [List.countP_cons, hv]
      rw [h1, h2]

/-- The stored row used in the spec's merge-no-clobber example:
`price = 19.99`, `name = NULL`. -/
def c1Stored : Row :=
  partItemToRow { manufacturer_id := some "M1", price := some ((1999 : Rat)/100) }

/-- The incoming record of the spec's merge-no-clobber example:
`price = NULL`, `name = "Widget"`. -/
def c1Incoming : Row :=
  partItemToRow { manufacturer_id := some "M1", name := some "Widget" }

/-- C1: for every stored parts row and every incoming record with the same
`manufacturer_id`, executing the generated upsert statement sets each column to
the incoming value when that value is non-null and keeps the existing stored
value when the incoming value is null; an existing non-null column value is
never overwritten with null. -/
theorem upsert_merge_no_clobber (stored incoming : Row) (m : String)
    (hs : stored "manufacturer_id" = some (.text m))
    (hi : incoming "manufacturer_id" = some (.text m)) :
    ∃ newRow : Row,
      execUpsert partCols "manufacturer_id" [stored] incoming = [newRow] ∧
      ∀ c ∈ partCols,
        (incoming c ≠ none → newRow c = incoming c) ∧
        (incoming c = none → newRow c = stored c) ∧
        (stored c ≠ none → newRow c ≠ none) := by
  refine ⟨applyUpdates (upsertUpdates partCols) stored incoming, ?_, ?_⟩
  · rw [execUpsert, if_pos]
    · simp [hs, hi]
    · exact ⟨by simp [hi], by simp [hs, hi]⟩
  · intro c hc
    rw [applyUpdates_eq, if_pos hc]
    cases hx : incoming c <;> simp [hx, Option.orElse]

/-- Witness for C1 at the spec's example: a stored row with `price = 19.99`,
`name = NULL` upserted with an incoming record with `price = NULL`,
`name = "Widget"` keeps `price = 19.99` and gains `name = "Widget"`. -/
theorem upsert_merge_no_clobber_witness :
    c1Stored "manufacturer_id" = some (.text "M1") ∧
    c1Incoming "manufacturer_id" = some (.text "M1") ∧
    c1Stored "price" = some (.real ((1999 : Rat)/100)) ∧
    c1Stored "name" = none ∧
    c1Incoming "price" = none ∧
    c1Incoming "name" = some (.text "Widget") ∧
    applyUpdates (upsertUpdates partCols) c1Stored c1Incoming "price"
      = some (.real ((1999 : Rat)/100)) ∧
    applyUpdates (upsertUpdates partCols) c1Stored c1Incoming "name"
      = some (.text "Widget") ∧
    (∃ newRow : Row,
      execUpsert partCols "manufacturer_id" [c1Stored] c1Incoming = [newRow] ∧
      ∀ c ∈ partCols,
        (c1Incoming c ≠ none → newRow c = c1Incoming c) ∧
        (c1Incoming c = none → newRow c = c1Stored c) ∧
        (c1Stored c ≠ none → newRow c ≠ none)) :=
  ⟨rfl, rfl, rfl, rfl, rfl, rfl, rfl, rfl,
    upsert_merge_no_clobber c1Stored c1Incoming "M1" rfl rfl⟩

/-- C2: saving the same `PartItem` twice through `DatabaseHandler.save_part`
(the generated conflict-handling upsert keyed on `manufacturer_id`) leaves the
parts table unchanged relative to a single save, and the table then holds
exactly one row with that `manufacturer_id`. -/
theorem save_part_twice_idempotent (t : List Row) (p : PartItem) (m : String)
    (hwf : WfTable "manufacturer_id" t)
    (hm : p.manufacturer_id = some m) :
    save_part (save_part t p) p = save_part t p ∧
      (save_part t p).countP (fun s => s "manufacturer_id" = some (.text m)) = 1 := by
  have hv : partItemToRow p "manufacturer_id" = some (.text m) := by
    simp [partItemToRow, hm]
  exact execUpsert_twice partCols "manufacturer_id" (by simp [partCols]) t
    (partItemToRow p) (.text m) hv hwf

/-- A concrete record used to witness C2. -/
def c2Part : PartItem := { manufacturer_id := some "PS111", name := some "Widget" }

/-- Witness for C2: saving `c2Part` twice into the empty parts table equals
saving it once, and exactly one row carries its `manufacturer_id`. -/
theorem save_part_twice_idempotent_witness :
    WfTable "manufacturer_id" [] ∧ c2Part.manufacturer_id = some "PS111" ∧
    (save_part (save_part [] c2Part) c2Part = save_part [] c2Part ∧
      (save_part [] c2Part).countP
        (fun s => s "manufacturer_id" = some (.text "PS111")) = 1) :=
  ⟨List.Pairwise.nil, rfl,
    save_part_twice_idempotent [] c2Part "PS111" List.Pairwise.nil rfl⟩

/-! ### Python string primitives used by the scrapers

Python's `str` operations are codepoint-based, so they are embedded as
operations on the string's character list (which also keeps them reducible by
the kernel, unlike `String.startsWith`'s byte-position loop). -/

/-- Python's `s.startswith(pre)`. -/
def pyStartsWith (s pre : String) : Bool := pre.toList.isPrefixOf s.toList

/-- Python's slice `s[n:]`. -/
def pyDrop (s : String) (n : Nat) : String := ⟨s.toList.drop n⟩

/-- Python's `s.upper()`, restricted to the ASCII case table (the ids proved
about below do not depend on the case-mapping table itself). -/
def pyUpper (s : String) : String := ⟨s.toList.map Char.toUpper⟩

/-- Python's `s.strip()`: leading and trailing whitespace removed. -/
def pyStrip (s : String) : String :=
  ⟨((s.toList.dropWhile Char.isWhitespace).reverse.dropWhile Char.isWhitespace).reverse⟩

/-- The UTF-8 encoding of one Unicode codepoint, as byte values. -/
def utf8EncodeCodepoint (n : Nat) : List Nat :=
  if n < 0x80 then [n]
  else if n < 0x800 then [0xC0 + n / 64, 0x80 + n % 64]
  else if n < 0x10000 then [0xE0 + n / 4096, 0x80 + (n / 64) % 64, 0x80 + n % 64]
  else [0xF0 + n / 262144, 0x80 + (n / 4096) % 64, 0x80 + (n / 64) % 64, 0x80 + n % 64]

/-! ### Content-hash dedup ids (reviews / repair stories / Q&A) -/

/-- Modelled from the spec: Python's `hashlib.md5` digest interpreted as an
integer (`int(hashlib.md5(s.encode()).hexdigest(), 16)`) is library code
outside this repository.  The spec relies only on the digest being a
deterministic function of the input bytes (`s.encode()` is UTF-8); it is
modelled as a deterministic polynomial fold over the string's UTF-8 bytes
into the 128-bit digest range. -/
def md5Nat (s : String) : Nat :=
  (s.toList.flatMap (fun c => utf8EncodeCodepoint c.toNat)).foldl
    (fun h b => (h * 131 + b) % (2 ^ 128)) 0

/-- Embedding of the review dedup id of
`PartScraper._parse_current_page_reviews`: the digest of
`manufacturer_id.upper() + header + text`, reduced modulo `10 ** 8`. -/
def review_id_of (manufacturer_id header text : String) : Nat :=
  md5Nat (pyUpper manufacturer_id ++ header ++ text) % (10 ^ 8)

/-- Embedding of the story dedup id of
`PartScraper._parse_current_page_stories`: the digest of
`manufacturer_id.upper() + title + text`, reduced modulo `10 ** 8`. -/
def story_id_of (manufacturer_id title text : String) : Nat :=
  md5Nat (pyUpper manufacturer_id ++ title ++ text) % (10 ^ 8)

/-- Embedding of the Q&A dedup id of `PartScraper._parse_qna_page`: the digest
of `manufacturer_id.upper() + question + model_number + answer`, reduced
modulo `10 ** 8`. -/
def qna_id_of (manufacturer_id question model_number answer : String) : Nat :=
  md5Nat (pyUpper manufacturer_id ++ question ++ model_number ++ answer) % (10 ^ 8)

/-- Embedding of the dataclass `itemclasses.PartReviewItem`. -/
structure PartReviewItem where
  review_id : Option Nat := none
  manufacturer_id : Option String := none
  header : Option String := none
  text : Option String := none
deriving DecidableEq, Repr

/-- The `PartReviewItem` built for one review block in
`PartScraper._parse_current_page_reviews` (the `manufacturer_id.upper() or ""`
expression collapses to `manufacturer_id.upper()`, since an empty upper-cased
string falls through to `""` anyway). -/
def mkReviewItem (manufacturer_id header text : String) : PartReviewItem :=
  { review_id := some (review_id_of manufacturer_id header text)
    manufacturer_id := some (pyUpper manufacturer_id)
    header := some header
    text := some text }

/-- Field names of `PartReviewItem` in dataclass declaration order. -/
def reviewCols : List String := ["review_id", "manufacturer_id", "header", "text"]

/-- The row of parameter values `DatabaseHandler.save_part_review` binds into
the generated reviews upsert. -/
def reviewItemToRow (r : PartReviewItem) : Row := fun c =>
  if c = "review_id" then r.review_id.map (fun n => .intv n)
  else if c = "manufacturer_id" then r.manufacturer_id.map .text
  else if c = "header" then r.header.map .text
  else if c = "text" then r.text.map .text
  else none

/-- Embedding of `DatabaseHandler.save_part_review`: execute the generated
reviews upsert (conflict key `review_id`). -/
def save_part_review (t : List Row) (r : PartReviewItem) : List Row :=
  execUpsert reviewCols "review_id" t (reviewItemToRow r)

/-- Embedding of `DatabaseHandler.save_part_reviews`: save each review of the
list in order. -/
def save_part_reviews (t : List Row) (rs : List PartReviewItem) : List Row :=
  rs.foldl save_part_review t

/-- C3: the dedup id is a deterministic function of `(manufacturer_id,
content)` — equal inputs give equal review/story/Q&A ids — and saving two
`PartReviewItem`s built from identical `(manufacturer_id, header, text)` into
a well-formed reviews table leaves exactly one row with that `review_id`. -/
theorem dedup_determinism (t : List Row) (hwf : WfTable "review_id" t)
    (m h x : String) :
    (∀ m' h' x', m = m' → h = h' → x = x' →
      (mkReviewItem m h x).review_id = (mkReviewItem m' h' x').review_id) ∧
    (∀ m1 t1 x1 m2 t2 x2, (m1, t1, x1) = (m2, t2, x2) →
      story_id_of m1 t1 x1 = story_id_of m2 t2 x2) ∧
    (∀ m1 q1 n1 a1 m2 q2 n2 a2, (m1, q1, n1, a1) = (m2, q2, n2, a2) →
      qna_id_of m1 q1 n1 a1 = qna_id_of m2 q2 n2 a2) ∧
    (save_part_reviews t [mkReviewItem m h x, mkReviewItem m h x]).countP
      (fun s => s "review_id" = some (.intv (review_id_of m h x))) = 1 := by
  refine ⟨?_, ?_, ?_, ?_⟩
  · rintro m' h' x' rfl rfl rfl; rfl
  · rintro m1 t1 x1 m2 t2 x2 heq
    obtain ⟨rfl, rfl, rfl⟩ : m1 = m2 ∧ t1 = t2 ∧ x1 = x2 := by
      simpa [Prod.ext_iff] using heq
    rfl
  · rintro m1 q1 n1 a1 m2 q2 n2 a2 heq
    obtain ⟨rfl, rfl, rfl, rfl⟩ : m1 = m2 ∧ q1 = q2 ∧ n1 = n2 ∧ a1 = a2 := by
      simpa [Prod.ext_iff] using heq
    rfl
  · have hv : reviewItemToRow (mkReviewItem m h x) "review_id"
        = some (.intv (review_id_of m h x)) := by
      simp [reviewItemToRow, mkReviewItem]
    have htw := execUpsert_twice reviewCols "review_id" (by simp [reviewCols]) t
      (reviewItemToRow (mkReviewItem m h x)) (.intv (review_id_of m h x)) hv hwf
    show (save_part_review (save_part_review t (mkReviewItem m h x))
        (mkReviewItem m h x)).countP _ = 1
    rw [show save_part_review (save_part_review t (mkReviewItem m h x))
        (mkReviewItem m h x) = save_part_review t (mkReviewItem m h x) from htw.1]
    exact htw.2

/-- Witness for C3 at a concrete review: both constructions agree and the
reviews table ends with one row for the id. -/
theorem dedup_determinism_witness :
    WfTable "review_id" [] ∧
    ((∀ m' h' x', "ps1" = m' → "Great" = h' → "Works fine" = x' →
      (mkReviewItem "ps1" "Great" "Works fine").review_id
        = (mkReviewItem m' h' x').review_id) ∧
    (∀ m1 t1 x1 m2 t2 x2, (m1, t1, x1) = (m2, t2, x2) →
      story_id_of m1 t1 x1 = story_id_of m2 t2 x2) ∧
    (∀ m1 q1 n1 a1 m2 q2 n2 a2, (m1, q1, n1, a1) = (m2, q2, n2, a2) →
      qna_id_of m1 q1 n1 a1 = qna_id_of m2 q2 n2 a2) ∧
    (save_part_reviews []
        [mkReviewItem "ps1" "Great" "Works fine",
         mkReviewItem "ps1" "Great" "Works fine"]).countP
      (fun s => s "review_id"
        = some (.intv (review_id_of "ps1" "Great" "Works fine"))) = 1) :=
  ⟨List.Pairwise.nil, dedup_determinism [] List.Pairwise.nil "ps1" "Great" "Works fine"⟩

/-- C10: every dedup id — the digest value reduced modulo `10 ** 8` — is a
natural number strictly below `100000000`, for all input strings. -/
theorem dedup_id_bounded (m h x ttl q mn a : String) :
    review_id_of m h x < 10 ^ 8 ∧
    story_id_of m ttl x < 10 ^ 8 ∧
    qna_id_of m q mn a < 10 ^ 8 :=
  ⟨Nat.mod_lt _ (by norm_num), Nat.mod_lt _ (by norm_num),
    Nat.mod_lt _ (by norm_num)⟩

/-! ### `AbstractScraper.checkCompatibility` -/

/-- The browser session state relevant to `checkCompatibility`: the driver's
current location and the log of navigations (`driver.get` calls, the network
actions) issued so far. -/
structure Session where
  current_url : String
  navigations : List String
deriving DecidableEq, Repr

/-- The compatibility-check endpoint URL built in
`AbstractScraper.checkCompatibility`. -/
def compatCheckUrl (model_id inventory_id : String) : String :=
  "https://www.partselect.com/api/Part/PartCompatibilityCheck?modelnumber="
    ++ model_id ++ "&inventoryid=" ++ inventory_id ++ "&partdescription=undefined"

/-- Outcome of a `checkCompatibility` call: the returned boolean or the raised
`ValueError`, the session afterwards, and the navigations this call issued. -/
structure CompatOutcome where
  result : Except String Bool
  session : Session
  issued : List String
deriving Repr

/-- Embedding of `AbstractScraper.checkCompatibility`.  `respond url` models
the `compatibilityCheckResult` field parsed out of the JSON body served at
`url` (`none` when the field is absent).  A part id without the `"PS"` prefix
raises `ValueError` before any navigation; otherwise the scraper saves the
current location, navigates to the endpoint, reads the field, navigates back,
and returns whether the field equals `"MODEL_PARTSKU_MATCH"`. -/
def checkCompatibility (respond : String → Option String)
    (model_id part_select_id : String) (s : Session) : CompatOutcome :=
  if pyStartsWith part_select_id "PS" then
    let inventory_id := pyDrop part_select_id 2
    let prev_url := s.current_url
    let url := compatCheckUrl model_id inventory_id
    let s1 : Session := { current_url := url, navigations := s.navigations ++ [url] }
    let compatibility_result := respond url
    let s2 : Session := { current_url := prev_url, navigations := s1.navigations ++ [prev_url] }
    { result := .ok (compatibility_result = some "MODEL_PARTSKU_MATCH")
      session := s2
      issued := [url, prev_url] }
  else
    { result := .error "Invalid part_select_id for checking compatibility (must start with PS)."
      session := s
      issued := [] }

/-- C4: for every part id not starting with `"PS"`, `checkCompatibility`
raises `ValueError` before any navigation: no network action is issued and
the session is untouched. -/
theorem checkCompatibility_invalid_id_rejected (respond : String → Option String)
    (model_id part_select_id : String) (s : Session)
    (hpre : ¬ pyStartsWith part_select_id "PS") :
    (checkCompatibility respond model_id part_select_id s).issued = [] ∧
    (checkCompatibility respond model_id part_select_id s).session = s ∧
    ∃ e, (checkCompatibility respond model_id part_select_id s).result = .error e := by
  rw [checkCompatibility, if_neg hpre]
  exact ⟨rfl, rfl, _, rfl⟩

/-- Witness for C4: `checkCompatibility("123", "MODEL1")` — a part id with no
`"PS"` prefix — errors with nothing navigated. -/
theorem checkCompatibility_invalid_id_rejected_witness :
    ¬ (pyStartsWith "MODEL1" "PS" = true) ∧
    ((checkCompatibility (fun _ => none) "123" "MODEL1"
        ⟨"https://www.partselect.com/", []⟩).issued = [] ∧
      (checkCompatibility (fun _ => none) "123" "MODEL1"
        ⟨"https://www.partselect.com/", []⟩).session = ⟨"https://www.partselect.com/", []⟩ ∧
      ∃ e, (checkCompatibility (fun _ => none) "123" "MODEL1"
        ⟨"https://www.partselect.com/", []⟩).result = .error e) :=
  ⟨by decide,
    checkCompatibility_invalid_id_rejected (fun _ => none) "123" "MODEL1"
      ⟨"https://www.partselect.com/", []⟩ (by decide)⟩

/-- C5: for every call with a `"PS"`-prefixed part id, `checkCompatibility`
returns a boolean that is `true` exactly when the endpoint's
`compatibilityCheckResult` field equals `"MODEL_PARTSKU_MATCH"` (and `false`
for any other response), and the session's location afterwards equals its
location before the call. -/
theorem checkCompatibility_roundtrip (respond : String → Option String)
    (model_id part_select_id : String) (s : Session)
    (hpre : pyStartsWith part_select_id "PS") :
    (∃ b, (checkCompatibility respond model_id part_select_id s).result = .ok b) ∧
    ((checkCompatibility respond model_id part_select_id s).result = .ok true ↔
      respond (compatCheckUrl model_id (pyDrop part_select_id 2))
        = some "MODEL_PARTSKU_MATCH") ∧
    (checkCompatibility respond model_id part_select_id s).session.current_url
      = s.current_url := by
  rw [checkCompatibility, if_pos hpre]
  refine ⟨⟨_, rfl⟩, ?_, rfl⟩
  constructor
  · intro hres
    by_contra hne
    simp only [Except.ok.injEq] at hres
    rw [decide_eq_true_eq] at hres
    exact hne hres
  · intro hres
    simp [hres]

/-- Witness for C5: `checkCompatibility("MODEL1", "PS123")` against a mocked
endpoint answering `"MODEL_PARTSKU_MATCH"` returns `true` and restores the
prior location. -/
theorem checkCompatibility_roundtrip_witness :
    pyStartsWith "PS123" "PS" = true ∧
    ((∃ b, (checkCompatibility (fun _ => some "MODEL_PARTSKU_MATCH") "MODEL1" "PS123"
        ⟨"https://www.partselect.com/", []⟩).result = .ok b) ∧
    ((checkCompatibility (fun _ => some "MODEL_PARTSKU_MATCH") "MODEL1" "PS123"
        ⟨"https://www.partselect.com/", []⟩).result = .ok true ↔
      (fun _ : String => some "MODEL_PARTSKU_MATCH") (compatCheckUrl "MODEL1" (pyDrop "PS123" 2))
        = some "MODEL_PARTSKU_MATCH") ∧
    (checkCompatibility (fun _ => some "MODEL_PARTSKU_MATCH") "MODEL1" "PS123"
        ⟨"https://www.partselect.com/", []⟩).session.current_url
      = "https://www.partselect.com/") :=
  ⟨by decide,
    checkCompatibility_roundtrip (fun _ => some "MODEL_PARTSKU_MATCH") "MODEL1" "PS123"
      ⟨"https://www.partselect.com/", []⟩ (by decide)⟩

/-! ### `generate_create_table_sql` and the type mapping -/

/-- Embedding of the Python type annotations appearing on entity dataclasses:
the base types the SQL mapper knows, `Optional[...]` (i.e. `Union[T, None]`),
and shapes with no SQL mapping such as `List[...]` or arbitrary classes. -/
inductive PyType where
  | str
  | int
  | float
  | bool
  | optional (t : PyType)
  | listOf (t : PyType)
  | other (typeName : String)
deriving DecidableEq, Repr

/-- Python's `Optional[...]`-stripping at the top of
`map_python_type_to_sql`: for `Union[T, NoneType]` the base is `T`, any other
annotation is its own base. -/
def stripOptional : PyType → PyType
  | .optional t => t
  | t => t

/-- Embedding of `database_utils.map_python_type_to_sql`: map the base type to
its SQL column type; every base without a specific mapping takes the `TEXT`
fallback branch. -/
def map_python_type_to_sql (py_type : PyType) : String :=
  match stripOptional py_type with
  | .str => "TEXT"
  | .int => "INTEGER"
  | .float => "REAL"
  | .bool => "BOOLEAN"
  | _ => "TEXT"

/-- Whether the mapper has a specific (non-fallback) mapping for the
annotation's base type. -/
def hasSqlMapping (py_type : PyType) : Bool :=
  match stripOptional py_type with
  | .str => true
  | .int => true
  | .float => true
  | .bool => true
  | _ => false

/-- A Python class as `generate_create_table_sql` sees it: whether
`dataclasses.is_dataclass` holds, and its fields (name and annotation) in
declaration order. -/
structure PyDataclass where
  is_dataclass : Bool
  fields : List (String × PyType)

/-- One column definition of `generate_create_table_sql`: the primary-key
field gets `PRIMARY KEY` (or `INTEGER PRIMARY KEY AUTOINCREMENT` when
requested and the mapped type is an integer type). -/
def sqlColumnDef (primary_key : String) (auto_increment_pk : Bool)
    (f : String × PyType) : String :=
  let sql_type := map_python_type_to_sql f.2
  if f.1 = primary_key then
    if auto_increment_pk &&
        (pyUpper sql_type = "INT" || pyUpper sql_type = "INTEGER" ||
          pyUpper sql_type = "BIGINT") then
      f.1 ++ " INTEGER PRIMARY KEY AUTOINCREMENT"
    else
      f.1 ++ " " ++ sql_type ++ " PRIMARY KEY"
  else
    f.1 ++ " " ++ sql_type

/-- Embedding of `database_utils.generate_create_table_sql`: raises
`TypeError` only for a non-dataclass, otherwise renders the
`CREATE TABLE IF NOT EXISTS` statement from the field list. -/
def generate_create_table_sql (cls : PyDataclass) (table_name primary_key : String)
    (auto_increment_pk : Bool) : Except String String :=
  if !cls.is_dataclass then
    .error "TypeError: not a dataclass"
  else
    let column_defs := cls.fields.map (sqlColumnDef primary_key auto_increment_pk)
    let col_str := String.intercalate ",\n  " column_defs
    .ok ("CREATE TABLE IF NOT EXISTS " ++ table_name ++ " (\n  " ++ col_str ++ "\n);")

/-- Counterexample to C6: a dataclass shape with a field whose annotation has
no SQL mapping (`List[str]`) does not make table creation fail — the
statement is generated with the field silently assigned the default column
type `TEXT`. -/
theorem create_table_unmapped_field_cex :
    hasSqlMapping (.listOf .str) = false ∧
    generate_create_table_sql ⟨true, [("id", .int), ("tags", .listOf .str)]⟩ "t" "id" false
      = .ok "CREATE TABLE IF NOT EXISTS t (\n  id INTEGER PRIMARY KEY,\n  tags TEXT\n);" :=
  ⟨rfl, rfl⟩

/-- C6 as amended: a field type with no specific SQL mapping is assigned the
fallback column type `TEXT` and table creation proceeds; only a non-dataclass
shape is rejected (with `TypeError`). -/
theorem create_table_unmapped_field_defaults_to_text :
    (∀ t : PyType, hasSqlMapping t = false → map_python_type_to_sql t = "TEXT") ∧
    (∀ (cls : PyDataclass) (table_name primary_key : String) (ai : Bool),
      cls.is_dataclass = true →
      ∃ sql, generate_create_table_sql cls table_name primary_key ai = .ok sql) := by
  constructor
  · intro t ht
    unfold map_python_type_to_sql
    unfold hasSqlMapping at ht
    cases h : stripOptional t <;> simp [h] at ht ⊢
  · intro cls tn pk ai hd
    rw [generate_create_table_sql, if_neg (by simp [hd])]
    exact ⟨_, rfl⟩

/-- Witness for the amended C6 at the unmapped annotation `List[str]` and a
concrete dataclass shape containing it. -/
theorem create_table_unmapped_field_defaults_to_text_witness :
    hasSqlMapping (.listOf .str) = false ∧
    map_python_type_to_sql (.listOf .str) = "TEXT" ∧
    (PyDataclass.mk true [("id", .int), ("tags", .listOf .str)]).is_dataclass = true ∧
    ∃ sql, generate_create_table_sql ⟨true, [("id", .int), ("tags", .listOf .str)]⟩
      "t" "id" false = .ok sql :=
  ⟨rfl, create_table_unmapped_field_defaults_to_text.1 (.listOf .str) rfl, rfl,
    create_table_unmapped_field_defaults_to_text.2
      ⟨true, [("id", .int), ("tags", .listOf .str)]⟩ "t" "id" false rfl⟩

/-! ### Category pagination (`CategoryScraper.scrape_category_links`) -/

/-- Embedding of the `while True` loop of
`CategoryScraper.scrape_category_links`: `fetch page_number` models
`get_page_links(page_number)` (the links one fetched listing page yields).
Each iteration issues one page fetch; the loop stops on the first page
yielding no links.  `fuel` bounds the unbounded loop (`none` = did not
terminate within `fuel` iterations).  Returns the collected links and the
number of page fetches issued. -/
def scrape_category_links_aux (fetch : Nat → List String) :
    Nat → Nat → List String → Nat → Option (List String × Nat)
  | 0, _, _, _ => none
  | fuel + 1, page_number, all_links, fetches =>
    let links := fetch page_number
    if links.isEmpty then some (all_links, fetches + 1)
    else scrape_category_links_aux fetch fuel (page_number + 1) (all_links ++ links) (fetches + 1)

/-- Embedding of `CategoryScraper.scrape_category_links`: start at page 1 with
no links collected. -/
def scrape_category_links (fetch : Nat → List String) (fuel : Nat) :
    Option (List String × Nat) :=
  scrape_category_links_aux fetch fuel 1 [] 0

/-- C7: when pages 1–3 each yield at least one link and page 4 yields none,
the pagination loop terminates, returns exactly the links of the three
non-empty pages (their union, in page order), and issues exactly 4 page
fetches. -/
theorem pagination_three_pages_then_empty (fetch : Nat → List String) (fuel : Nat)
    (h1 : fetch 1 ≠ []) (h2 : fetch 2 ≠ []) (h3 : fetch 3 ≠ []) (h4 : fetch 4 = [])
    (hfuel : 4 ≤ fuel) :
    scrape_category_links fetch fuel = some (fetch 1 ++ fetch 2 ++ fetch 3, 4) ∧
    ∀ x, x ∈ fetch 1 ++ fetch 2 ++ fetch 3 ↔ (x ∈ fetch 1 ∨ x ∈ fetch 2 ∨ x ∈ fetch 3) := by
  obtain ⟨k, rfl⟩ : ∃ k, fuel = k + 4 := ⟨fuel - 4, by omega⟩
  constructor
  · show scrape_category_links_aux fetch (k + 4) 1 [] 0 = _
    rw [scrape_category_links_aux, if_neg (by simpa using h1)]
    rw [scrape_category_links_aux, if_neg (by simpa using h2)]
    rw [scrape_category_links_aux, if_neg (by simpa using h3)]
    rw [scrape_category_links_aux, if_pos (by simpa using h4)]
    simp
  · intro x
    simp [List.mem_append, or_assoc]

/-- A concrete 3-pages-then-empty listing used to witness C7. -/
def c7Fetch : Nat → List String := fun p =>
  if p = 1 then ["https://example.com/a"]
  else if p = 2 then ["https://example.com/b"]
  else if p = 3 then ["https://example.com/c"]
  else []

/-- Witness for C7 on the concrete listing `c7Fetch` with fuel 10. -/
theorem pagination_three_pages_then_empty_witness :
    c7Fetch 1 ≠ [] ∧ c7Fetch 2 ≠ [] ∧ c7Fetch 3 ≠ [] ∧ c7Fetch 4 = [] ∧ 4 ≤ 10 ∧
    (scrape_category_links c7Fetch 10 = some (c7Fetch 1 ++ c7Fetch 2 ++ c7Fetch 3, 4) ∧
      ∀ x, x ∈ c7Fetch 1 ++ c7Fetch 2 ++ c7Fetch 3 ↔
        (x ∈ c7Fetch 1 ∨ x ∈ c7Fetch 2 ∨ x ∈ c7Fetch 3)) :=
  ⟨by decide, by decide, by decide, by decide, by decide,
    pagination_three_pages_then_empty c7Fetch 10 (by decide) (by decide) (by decide)
      (by decide) (by decide)⟩

/-! ### The paginated review collection loop (`PartScraper._scrape_reviews`) -/

/-- Embedding of `PartScraper._parse_current_page_reviews` over the page's
review blocks (header, text): per block, build a `PartReviewItem` whose
`review_id` is the content-hash dedup id, and append `f"{header} {text} "` to
the page's combined string, which is stripped at the end. -/
def parse_current_page_reviews (manufacturer_id : String)
    (blocks : List (String × String)) : List PartReviewItem × String :=
  let res := blocks.foldl
    (fun (acc : List PartReviewItem × String) (b : String × String) =>
      (acc.1 ++ [mkReviewItem manufacturer_id b.1 b.2],
       acc.2 ++ b.1 ++ " " ++ b.2 ++ " "))
    ([], "")
  (res.1, pyStrip res.2)

/-- One page of the paginated review listing as the loop observes it: the
parsed review blocks and whether clicking the `next` pagination control
succeeds afterwards. -/
structure ReviewPage where
  blocks : List (String × String)
  nextOk : Bool

/-- Embedding of the `while True` loop of `PartScraper._scrape_reviews`,
faithful to the source's bookkeeping: `collected` is the Python set — the
page-level `combined_str` is tested for membership
(`combined_str not in collected`), and on a page with new reviews the
*characters* of `combined_str` are added (`collected.update(combined_str)`
iterates the string).  The loop breaks when a page contributes no new
records, or after a page whose `next` click fails. -/
def scrape_reviews_loop (manufacturer_id : String) :
    List ReviewPage → List String → List PartReviewItem → List PartReviewItem
  | [], _, reviews => reviews
  | page :: rest, collected, reviews =>
    let parsed := parse_current_page_reviews manufacturer_id page.blocks
    let new_reviews := if collected.contains parsed.2 then [] else parsed.1
    let reviews2 := reviews ++ new_reviews
    if new_reviews.isEmpty then reviews2
    else if page.nextOk then
      scrape_reviews_loop manufacturer_id rest
        (collected ++ parsed.2.toList.map (fun ch => String.mk [ch])) reviews2
    else reviews2

/-- Embedding of `PartScraper._scrape_reviews`: run the loop with an empty
`collected` set and an empty review list. -/
def scrape_reviews (manufacturer_id : String) (pages : List ReviewPage) :
    List PartReviewItem :=
  scrape_reviews_loop manufacturer_id pages [] []

/-- C8's failing input: two listing pages that both parse to the same single
review block `("A", "B")`, with a working `next` control in between. -/
def c8Pages : List ReviewPage := [⟨[("A", "B")], true⟩, ⟨[("A", "B")], false⟩]

/-- Evaluation of the embedded review loop at C8's failing input: a single run
returns two records with the same dedup signature.  The page-level
`combined_str not in collected` test (against a set into which
`collected.update(combined_str)` only ever puts single characters) never
skips an already-seen record, contradicting the per-record dedup the claim
states. -/
theorem scrape_reviews_duplicate_signature :
    (scrape_reviews "PS1" c8Pages).map (fun r => r.review_id)
      = [some (review_id_of "PS1" "A" "B"), some (review_id_of "PS1" "A" "B")] ∧
    (scrape_reviews "PS1" c8Pages).length = 2 :=
  ⟨rfl, rfl⟩

/-! ### Lazy field accessors of `PartScraper` -/

/-- Python truthiness of a nullable string (the `if not self.part_item.x`
tests): `None` and `""` are falsy. -/
def truthyStr : Option String → Bool
  | none => false
  | some s => !(s == "")

/-- Python truthiness of a nullable boolean: only `True` is truthy. -/
def truthyBool : Option Bool → Bool
  | none => false
  | some b => b

/-- The observable outcome of one property access: the in-memory `PartItem`
afterwards, the `db.save_part` calls issued, the number of invocations of the
field's extraction routine (a live session interaction), and the returned
value. -/
structure Access (α : Type) where
  item : PartItem
  dbWrites : List PartItem
  scrapeCalls : Nat
  value : α

/-- Embedding of the `PartScraper.name` property (`if not ...: scrape, save`).
`scraped` is the result `_scrape_name()` would produce. -/
def name_access (scraped : Option String) (it : PartItem) : Access (Option String) :=
  if truthyStr it.name then ⟨it, [], 0, it.name⟩
  else ⟨{ it with name := scraped }, [{ it with name := scraped }], 1, scraped⟩

/-- Embedding of the `PartScraper.price` property (`if ... is None`). -/
def price_access (scraped : Option Rat) (it : PartItem) : Access (Option Rat) :=
  if it.price = none then
    ⟨{ it with price := scraped }, [{ it with price := scraped }], 1, scraped⟩
  else ⟨it, [], 0, it.price⟩

/-- Embedding of the `PartScraper.difficulty` property (`if ... is None`). -/
def difficulty_access (scraped : Option String) (it : PartItem) : Access (Option String) :=
  if it.difficulty = none then
    ⟨{ it with difficulty := scraped }, [{ it with difficulty := scraped }], 1, scraped⟩
  else ⟨it, [], 0, it.difficulty⟩

/-- Embedding of the `PartScraper.time` property (`if ... is None`). -/
def time_access (scraped : Option String) (it : PartItem) : Access (Option String) :=
  if it.time = none then
    ⟨{ it with time := scraped }, [{ it with time := scraped }], 1, scraped⟩
  else ⟨it, [], 0, it.time⟩

/-- Embedding of the `PartScraper.rating` property (`if ... is None`). -/
def rating_access (scraped : Option Rat) (it : PartItem) : Access (Option Rat) :=
  if it.rating = none then
    ⟨{ it with rating := scraped }, [{ it with rating := scraped }], 1, scraped⟩
  else ⟨it, [], 0, it.rating⟩

/-- Embedding of the `PartScraper.description` property (`if not ...`). -/
def description_access (scraped : Option String) (it : PartItem) : Access (Option String) :=
  if truthyStr it.description then ⟨it, [], 0, it.description⟩
  else ⟨{ it with description := scraped }, [{ it with description := scraped }], 1, scraped⟩

/-- Embedding of the `PartScraper.related_parts` property: on a falsy cached
value it scrapes and writes the in-memory record but — unlike the six
accessors above — issues no `db.save_part` call.  `_scrape_related_parts`
always returns a string, so `scraped : String`. -/
def related_parts_access (scraped : String) (it : PartItem) : Access (Option String) :=
  if truthyStr it.related_parts then ⟨it, [], 0, it.related_parts⟩
  else ⟨{ it with related_parts := some scraped }, [], 1, some scraped⟩

/-- Embedding of the `PartScraper.availability` property: on a falsy cached
value (`None` or `False`) it scrapes and writes the in-memory record, with no
`db.save_part` call. -/
def availability_access (scraped : Option Bool) (it : PartItem) : Access (Option Bool) :=
  if truthyBool it.availability then ⟨it, [], 0, it.availability⟩
  else ⟨{ it with availability := scraped }, [], 1, scraped⟩

/-- Counterexample to C9: (i) accessing `related_parts` with a null cached
value invokes the extraction routine and writes the record in memory but
issues no store write, so the value is not "persisted to the store
immediately"; (ii) accessing `name` with a non-null cached value (the empty
string) is not a pure cache read — the extraction routine runs. -/
theorem lazy_accessor_cex :
    ((related_parts_access "1. X" { manufacturer_id := some "M" }).dbWrites = [] ∧
      (related_parts_access "1. X" { manufacturer_id := some "M" }).scrapeCalls = 1 ∧
      ({ manufacturer_id := some "M" } : PartItem).related_parts = none) ∧
    ((name_access (some "N") { manufacturer_id := some "M", name := some "" }).scrapeCalls = 1 ∧
      ({ manufacturer_id := some "M", name := some "" } : PartItem).name ≠ none) :=
  ⟨⟨rfl, rfl, rfl⟩, rfl, by decide⟩

/-- C9 as amended: on a cache miss each accessor invokes its extraction
routine once, writes the result into the record and returns it; the
name/price/difficulty/time/rating/description accessors additionally persist
the updated record immediately, while related-parts and availability never
issue a store write.  On a cache hit the cached value is returned with no
extraction and no store write — where "miss" is `is None` for
price/difficulty/time/rating but Python falsiness for name/description/
related-parts/availability (so `""` and `False` also re-scrape). -/
theorem lazy_accessor_contract (it : PartItem) (vs vd vt : Option String)
    (vq vr : Option Rat) (vrel : String) (vb : Option Bool) :
    (truthyStr it.name = false →
      name_access vs it = ⟨{ it with name := vs }, [{ it with name := vs }], 1, vs⟩) ∧
    (truthyStr it.name = true → name_access vs it = ⟨it, [], 0, it.name⟩) ∧
    (it.price = none →
      price_access vq it = ⟨{ it with price := vq }, [{ it with price := vq }], 1, vq⟩) ∧
    (it.price ≠ none → price_access vq it = ⟨it, [], 0, it.price⟩) ∧
    (it.difficulty = none →
      difficulty_access vd it
        = ⟨{ it with difficulty := vd }, [{ it with difficulty := vd }], 1, vd⟩) ∧
    (it.difficulty ≠ none → difficulty_access vd it = ⟨it, [], 0, it.difficulty⟩) ∧
    (it.time = none →
      time_access vt it = ⟨{ it with time := vt }, [{ it with time := vt }], 1, vt⟩) ∧
    (it.time ≠ none → time_access vt it = ⟨it, [], 0, it.time⟩) ∧
    (it.rating = none →
      rating_access vr it = ⟨{ it with rating := vr }, [{ it with rating := vr }], 1, vr⟩) ∧
    (it.rating ≠ none → rating_access vr it = ⟨it, [], 0, it.rating⟩) ∧
    (truthyStr it.description = false →
      description_access vd it
        = ⟨{ it with description := vd }, [{ it with description := vd }], 1, vd⟩) ∧
    (truthyStr it.description = true → description_access vd it = ⟨it, [], 0, it.description⟩) ∧
    (related_parts_access vrel it).dbWrites = [] ∧
    (truthyStr it.related_parts = false →
      related_parts_access vrel it
        = ⟨{ it with related_parts := some vrel }, [], 1, some vrel⟩) ∧
    (truthyStr it.related_parts = true →
      related_parts_access vrel it = ⟨it, [], 0, it.related_parts⟩) ∧
    (availability_access vb it).dbWrites = [] ∧
    (truthyBool it.availability = false →
      availability_access vb it = ⟨{ it with availability := vb }, [], 1, vb⟩) ∧
    (truthyBool it.availability = true →
      availability_access vb it = ⟨it, [], 0, it.availability⟩) := by
  refine ⟨?_, ?_, ?_, ?_, ?_, ?_, ?_, ?_, ?_, ?_, ?_, ?_, ?_, ?_, ?_, ?_, ?_, ?_⟩
  · intro h; simp [name_access, h]
  · intro h; simp [name_access, h]
  · intro h; simp [price_access, h]
  · intro h; simp [price_access, h]
  · intro h; simp [difficulty_access, h]
  · intro h; simp [difficulty_access, h]
  · intro h; simp [time_access, h]
  · intro h; simp [time_access, h]
  · intro h; simp [rating_access, h]
  · intro h; simp [rating_access, h]
  · intro h; simp [description_access, h]
  · intro h; simp [description_access, h]
  · by_cases h : truthyStr it.related_parts <;> simp [related_parts_access, h]
  · intro h; simp [related_parts_access, h]
  · intro h; simp [related_parts_access, h]
  · by_cases h : truthyBool it.availability <;> simp [availability_access, h]
  · intro h; simp [availability_access, h]
  · intro h; simp [availability_access, h]

/-- A fresh record (all fields at their dataclass defaults) used to witness
the amended C9. -/
def c9Item : PartItem := { manufacturer_id := some "M" }

/-- Witness for the amended C9 at `c9Item`. -/
theorem lazy_accessor_contract_witness :
    (truthyStr c9Item.name = false →
      name_access (some "N") c9Item
        = ⟨{ c9Item with name := some "N" }, [{ c9Item with name := some "N" }], 1, some "N"⟩) ∧
    (truthyStr c9Item.name = true → name_access (some "N") c9Item = ⟨c9Item, [], 0, c9Item.name⟩) ∧
    (c9Item.price = none →
      price_access (some 4) c9Item
        = ⟨{ c9Item with price := some 4 }, [{ c9Item with price := some 4 }], 1, some 4⟩) ∧
    (c9Item.price ≠ none → price_access (some 4) c9Item = ⟨c9Item, [], 0, c9Item.price⟩) ∧
    (c9Item.difficulty = none →
      difficulty_access (some "Easy") c9Item
        = ⟨{ c9Item with difficulty := some "Easy" },
           [{ c9Item with difficulty := some "Easy" }], 1, some "Easy"⟩) ∧
    (c9Item.difficulty ≠ none →
      difficulty_access (some "Easy") c9Item = ⟨c9Item, [], 0, c9Item.difficulty⟩) ∧
    (c9Item.time = none →
      time_access (some "15 min") c9Item
        = ⟨{ c9Item with time := some "15 min" },
           [{ c9Item with time := some "15 min" }], 1, some "15 min"⟩) ∧
    (c9Item.time ≠ none → time_access (some "15 min") c9Item = ⟨c9Item, [], 0, c9Item.time⟩) ∧
    (c9Item.rating = none →
      rating_access (some 5) c9Item
        = ⟨{ c9Item with rating := some 5 }, [{ c9Item with rating := some 5 }], 1, some 5⟩) ∧
    (c9Item.rating ≠ none → rating_access (some 5) c9Item = ⟨c9Item, [], 0, c9Item.rating⟩) ∧
    (truthyStr c9Item.description = false →
      description_access (some "Easy") c9Item
        = ⟨{ c9Item with description := some "Easy" },
           [{ c9Item with description := some "Easy" }], 1, some "Easy"⟩) ∧
    (truthyStr c9Item.description = true →
      description_access (some "Easy") c9Item = ⟨c9Item, [], 0, c9Item.description⟩) ∧
    (related_parts_access "1. X" c9Item).dbWrites = [] ∧
    (truthyStr c9Item.related_parts = false →
      related_parts_access "1. X" c9Item
        = ⟨{ c9Item with related_parts := some "1. X" }, [], 1, some "1. X"⟩) ∧
    (truthyStr c9Item.related_parts = true →
      related_parts_access "1. X" c9Item = ⟨c9Item, [], 0, c9Item.related_parts⟩) ∧
    (availability_access (some false) c9Item).dbWrites = [] ∧
    (truthyBool c9Item.availability = false →
      availability_access (some false) c9Item
        = ⟨{ c9Item with availability := some false }, [], 1, some false⟩) ∧
    (truthyBool c9Item.availability = true →
      availability_access (some false) c9Item = ⟨c9Item, [], 0, c9Item.availability⟩) :=
  lazy_accessor_contract c9Item (some "N") (some "Easy") (some "15 min")
    (some 4) (some 5) "1. X" (some false)

end Scraper
